import Mathlib

/-!
Shallow embedding of `xyl3m/aws-clients-typescript`: the `S3Bucket` and
`SqsQueue` facade classes, their wrapped-error types, and the traces of
underlying AWS-client calls and log entries that each operation produces.

The underlying AWS SDK clients are modelled as oracles (`S3Behavior`,
`SqsBehavior`, `SignBehavior`): functions from the issued command to the
outcome the service would report.  Each facade method is translated from the
TypeScript source into a pure function returning the operation's result
together with the ordered list of client calls it issued and the ordered list
of log entries it emitted.
-/

namespace AwsClients

/-- Thrown JavaScript error values.  `s3BucketException` embeds the
`S3BucketException` class of `src/exceptions/s3-bucket-exception.ts` and
`sqsQueueException` embeds the `SqsQueueException` class of
`src/exceptions/sqs-queue-exception.ts`: both extend `Error` with a
`message` and an optional `cause` field.  `other` stands for any error value
that is not one of the two component exception classes (its first field is
the JavaScript error's `name`). -/
inductive JsError where
  | s3BucketException (message : String) (cause : Option JsError)
  | sqsQueueException (message : String) (cause : Option JsError)
  | other (name : String) (message : String)

/-- Embedding of the JavaScript `error instanceof SqsQueueException` test. -/
def JsError.isSqsQueueException : JsError → Bool
  | .sqsQueueException _ _ => true
  | _ => false

/-- Embedding of JavaScript string interpolation of an error value
(template `${error}`), which renders as `name + ": " + message`; both
exception classes set `name` to their constructor name. -/
def JsError.render : JsError → String
  | .s3BucketException m _ => "S3BucketException: " ++ m
  | .sqsQueueException m _ => "SqsQueueException: " ++ m
  | .other n m => n ++ ": " ++ m

/-- Severity levels of the winston logger used by both facades. -/
inductive LogLevel where
  | error
  | warn
  | info
  | debug

/-- One emitted log line: its severity and its rendered message. -/
structure LogEntry where
  level : LogLevel
  message : String

/-! ## SQS data model (from `@aws-sdk/client-sqs` as used by the source) -/

/-- Embedding of the SDK `Message` shape: every field the source touches is
optional, as in the TypeScript type. -/
structure Message where
  MessageId : Option String := none
  ReceiptHandle : Option String := none
  Body : Option String := none

/-- Commands sent through `sqsClient.send`, with exactly the input fields the
source sets on `SendMessageCommand`, `DeleteMessageCommand` and
`ReceiveMessageCommand`. -/
inductive SqsCall where
  | sendMessage (queueUrl : String) (messageBody : Option String) (delaySeconds : Option Nat)
  | deleteMessage (queueUrl : String) (receiptHandle : Option String)
  | receiveMessage (queueUrl : String) (maxNumberOfMessages : Nat) (waitTimeSeconds : Nat)

/-- Response shape of an SQS client call: the only field the source reads is
`Messages` (optional, as in the SDK). -/
structure SqsResponse where
  Messages : Option (List Message) := none

/-- Oracle for the underlying `SQSClient.send`: what the service does with
each issued command. -/
abbrev SqsBehavior := SqsCall → Except JsError SqsResponse

/-- Outcome of one facade operation: its returned value or raised error, the
ordered trace of underlying client calls, and the ordered log entries. -/
structure SqsOp (α : Type) where
  result : Except JsError α
  calls : List SqsCall
  logs : List LogEntry

/-- Embedding of JavaScript `queueUrl.split('.')`: split a character list at
every `'.'`, keeping empty segments. -/
def jsSplitDot : List Char → List (List Char)
  | [] => [[]]
  | c :: cs => if c = '.' then [] :: jsSplitDot cs else (jsSplitDot cs).modifyHead (fun l => c :: l)

/-- Embedding of the `SqsQueue` constructor line
`region: queueUrl.split('.')[1]`: the region value handed to the underlying
`SQSClient` (`none` models JavaScript `undefined` when the URL has fewer
than two dot-delimited segments). -/
def sqsClientRegion (queueUrl : String) : Option String :=
  ((jsSplitDot queueUrl.data)[1]?).map (fun l => String.mk l)

/-- Configuration state of an `SqsQueue` instance: the primary queue URL and
the dead-letter queue URL, fixed at construction. -/
structure SqsQueue where
  queueUrl : String
  deadLetterQueueUrl : String

/-- Embedding of `SqsQueue.sendMessage`. -/
def SqsQueue.sendMessage (q : SqsQueue) (beh : SqsBehavior) (messageBody : String) :
    SqsOp Unit :=
  let call := SqsCall.sendMessage q.queueUrl (some messageBody) none
  match beh call with
  | .ok _ => ⟨.ok (), [call], []⟩
  | .error e =>
      ⟨.error (.sqsQueueException "Failed to send message" (some e)), [call],
        [⟨.error, "Failed to send message to SQS queue: " ++ e.render⟩]⟩

/-- Embedding of `SqsQueue.deleteMessage`. -/
def SqsQueue.deleteMessage (q : SqsQueue) (beh : SqsBehavior) (message : Message) :
    SqsOp Unit :=
  let call := SqsCall.deleteMessage q.queueUrl message.ReceiptHandle
  match beh call with
  | .ok _ => ⟨.ok (), [call], []⟩
  | .error e =>
      ⟨.error (.sqsQueueException "Failed to delete message" (some e)), [call],
        [⟨.error, "Failed to delete message from SQS queue: " ++ e.render⟩]⟩

/-- Embedding of `SqsQueue.receiveMessage` (long-poll wait fixed at 20s,
`response.Messages || []` on success). -/
def SqsQueue.receiveMessage (q : SqsQueue) (beh : SqsBehavior)
    (maxNumberOfMessages : Nat := 10) : SqsOp (List Message) :=
  let call := SqsCall.receiveMessage q.queueUrl maxNumberOfMessages 20
  match beh call with
  | .ok resp => ⟨.ok (resp.Messages.getD []), [call], []⟩
  | .error e =>
      ⟨.error (.sqsQueueException "Failed to receive message" (some e)), [call],
        [⟨.error, "Failed to receive message from SQS queue: " ++ e.render⟩]⟩

/-- Embedding of the `catch` block of `SqsQueue.sendMessageToDlq`: on an
`SqsQueueException` instance, log a warning and re-raise the same error;
otherwise log at error level and wrap. -/
def dlqCatch (e : JsError) (logs : List LogEntry) : Except JsError Unit × List LogEntry :=
  if e.isSqsQueueException then
    (.error e,
      logs ++ [⟨.warn, "Failed to send message to DLQ while deleting message from original queue"⟩])
  else
    (.error (.sqsQueueException "Failed to send message to DLQ" (some e)),
      logs ++ [⟨.error, "Failed to send message to SQS DLQ: " ++ e.render⟩])

/-- Embedding of `SqsQueue.sendMessageToDlq`: delete from the primary queue,
then send the original body to the dead-letter queue; the shared `catch`
block is `dlqCatch`. -/
def SqsQueue.sendMessageToDlq (q : SqsQueue) (beh : SqsBehavior) (message : Message) :
    SqsOp Unit :=
  let d := q.deleteMessage beh message
  match d.result with
  | .error e =>
      let h := dlqCatch e d.logs
      ⟨h.1, d.calls, h.2⟩
  | .ok _ =>
      let call := SqsCall.sendMessage q.deadLetterQueueUrl message.Body none
      match beh call with
      | .ok _ => ⟨.ok (), d.calls ++ [call], d.logs⟩
      | .error e =>
          let h := dlqCatch e d.logs
          ⟨h.1, d.calls ++ [call], h.2⟩

/-- Embedding of the `catch` block of `SqsQueue.rescheduleMessage`. -/
def rescheduleCatch (e : JsError) (logs : List LogEntry) :
    Except JsError Unit × List LogEntry :=
  if e.isSqsQueueException then
    (.error e,
      logs ++ [⟨.warn, "Failed to reschedule message while deleting message from queue"⟩])
  else
    (.error (.sqsQueueException "Failed to reschedule message" (some e)),
      logs ++ [⟨.error, "Failed to reschedule message: " ++ e.render⟩])

/-- Embedding of `SqsQueue.rescheduleMessage`: delete from the primary queue,
then send the original body back to the same queue with `DelaySeconds: 30`. -/
def SqsQueue.rescheduleMessage (q : SqsQueue) (beh : SqsBehavior) (message : Message) :
    SqsOp Unit :=
  let d := q.deleteMessage beh message
  match d.result with
  | .error e =>
      let h := rescheduleCatch e d.logs
      ⟨h.1, d.calls, h.2⟩
  | .ok _ =>
      let call := SqsCall.sendMessage q.queueUrl message.Body (some 30)
      match beh call with
      | .ok _ => ⟨.ok (), d.calls ++ [call], d.logs⟩
      | .error e =>
          let h := rescheduleCatch e d.logs
          ⟨h.1, d.calls ++ [call], h.2⟩

/-! ## S3 data model (from `@aws-sdk/client-s3` as used by the source) -/

/-- Embedding of the SDK `_Object` descriptor shape returned by listing. -/
structure S3ObjectDesc where
  Key : Option String := none
  Size : Option Nat := none

/-- Commands sent through `s3Client.send`.  Upload payload bodies are
represented by their byte length, the only attribute the upload-size
strategy inspects. -/
inductive S3Call where
  | listObjectsV2 (bucket : String) (pfx : String) (maxKeys : Nat)
  | headObject (bucket : String) (key : String)
  | putObject (bucket : String) (key : String) (size : Nat)
  | getObject (bucket : String) (key : String)
  | deleteObject (bucket : String) (key : String)
  | createMultipartUpload (bucket : String) (key : String)
  | uploadPart (bucket : String) (key : String) (uploadId : Option String)
      (partNumber : Nat) (size : Nat)
  | completeMultipartUpload (bucket : String) (key : String) (uploadId : Option String)
      (parts : List (Nat × Option String))

/-- Response shape of an S3 client call: a JavaScript object whose fields are
all optional; each facade method reads only the fields it needs. -/
structure S3Response where
  Contents : Option (List S3ObjectDesc) := none
  Body : Option String := none
  UploadId : Option String := none
  ETag : Option String := none
  ContentLength : Option Nat := none
  ContentType : Option String := none

/-- Oracle for the underlying `S3Client.send`. -/
abbrev S3Behavior := S3Call → Except JsError S3Response

/-- Commands handed to the `getSignedUrl` presigning helper (built without a
body, as in the source). -/
inductive S3PresignCommand where
  | getObjectCmd (bucket : String) (key : String)
  | putObjectCmd (bucket : String) (key : String)

/-- Outcome of a `getSignedUrl` invocation.  `thrown` is a synchronous throw
(intercepted by the facade's `try`/`catch`); `rejected` is an asynchronous
rejection of the returned promise, which the facade's `catch` does NOT
intercept because the source returns the promise without `await`. -/
inductive SignOutcome where
  | ok (url : String)
  | thrown (e : JsError)
  | rejected (e : JsError)

/-- Oracle for the `getSignedUrl` helper: command and `expiresIn` seconds. -/
abbrev SignBehavior := S3PresignCommand → Nat → SignOutcome

/-- Outcome of one `S3Bucket` operation, with its client-call trace and logs. -/
structure S3Op (α : Type) where
  result : Except JsError α
  calls : List S3Call
  logs : List LogEntry

/-- Configuration state of an `S3Bucket` instance, fixed at construction. -/
structure S3Bucket where
  region : String
  bucketName : String

/-- Embedding of `S3Bucket.listObjects` (`response.Contents || []`). -/
def S3Bucket.listObjects (b : S3Bucket) (beh : S3Behavior)
    (pfx : String := "") (maxKeys : Nat := 1000) : S3Op (List S3ObjectDesc) :=
  let call := S3Call.listObjectsV2 b.bucketName pfx maxKeys
  match beh call with
  | .ok resp => ⟨.ok (resp.Contents.getD []), [call], []⟩
  | .error e =>
      ⟨.error (.s3BucketException "Failed to list objects in S3" (some e)), [call],
        [⟨.error, "Failed to list objects in S3: " ++ e.render⟩]⟩

/-- Embedding of `S3Bucket.headObject`. -/
def S3Bucket.headObject (b : S3Bucket) (beh : S3Behavior) (key : String) :
    S3Op S3Response :=
  let call := S3Call.headObject b.bucketName key
  match beh call with
  | .ok resp => ⟨.ok resp, [call], []⟩
  | .error e =>
      ⟨.error (.s3BucketException "Failed to head object from S3" (some e)), [call],
        [⟨.error, "Failed to head object from S3: " ++ e.render⟩]⟩

/-- The fixed `partSize` the source passes to the upload helper:
`1024 * 1024 * 100` bytes (100 MiB). -/
def partSize : Nat := 1024 * 1024 * 100

theorem partSize_eq : partSize = 104857600 := by norm_num [partSize]

/-- Modelled from the spec: the part split of the upload helper
(`@aws-sdk/lib-storage` `Upload`), an external dependency whose code is not
in this repository.  Per spec §4.1, a large payload is split into parts of
the fixed part size, the last part possibly smaller.  The first argument is
recursion fuel (always sufficient at the call site in `uploadChunkSizes`). -/
def uploadChunkSizesGo : Nat → Nat → List Nat
  | 0, size => [size]
  | fuel + 1, size =>
      if size ≤ partSize then [size]
      else partSize :: uploadChunkSizesGo fuel (size - partSize)

/-- Modelled from the spec: the list of byte sizes of the successive parts of
a payload of `size` bytes. -/
def uploadChunkSizes (size : Nat) : List Nat :=
  uploadChunkSizesGo (size / partSize + 1) size

/-- Modelled from the spec: the part-upload loop of the upload helper.
Uploads each chunk with monotonically increasing part numbers starting at
`pn`, collecting the `(partNumber, ETag)` pair each part upload returns;
stops at the first failure. -/
def uploadParts (beh : S3Behavior) (bucket key : String) (uploadId : Option String) :
    List Nat → Nat → Except JsError (List (Nat × Option String)) × List S3Call
  | [], _ => (.ok [], [])
  | sz :: rest, pn =>
      let call := S3Call.uploadPart bucket key uploadId pn sz
      match beh call with
      | .error e => (.error e, [call])
      | .ok resp =>
          match uploadParts beh bucket key uploadId rest (pn + 1) with
          | (.error e, calls) => (.error e, call :: calls)
          | (.ok parts, calls) => (.ok ((pn, resp.ETag) :: parts), call :: calls)

/-- Modelled from the spec: `Upload.done()` of `@aws-sdk/lib-storage`, the
upload-strategy helper the source delegates to (not part of this
repository).  A payload of at most `partSize` bytes is sent with a single
`PutObject`; a larger payload is sent as a multipart sequence: initiate,
upload every part, then complete with the ordered list of part
identifiers/checksums. -/
def uploadDone (beh : S3Behavior) (bucket key : String) (size : Nat) :
    Except JsError Unit × List S3Call :=
  if size ≤ partSize then
    let call := S3Call.putObject bucket key size
    match beh call with
    | .ok _ => (.ok (), [call])
    | .error e => (.error e, [call])
  else
    let initCall := S3Call.createMultipartUpload bucket key
    match beh initCall with
    | .error e => (.error e, [initCall])
    | .ok initResp =>
        match uploadParts beh bucket key initResp.UploadId (uploadChunkSizes size) 1 with
        | (.error e, calls) => (.error e, initCall :: calls)
        | (.ok parts, calls) =>
            let completeCall :=
              S3Call.completeMultipartUpload bucket key initResp.UploadId parts
            match beh completeCall with
            | .ok _ => (.ok (), initCall :: (calls ++ [completeCall]))
            | .error e => (.error e, initCall :: (calls ++ [completeCall]))

/-- Embedding of `S3Bucket.uploadObject`: delegate to the upload helper with
the fixed 100 MiB `partSize`; wrap and log any failure. -/
def S3Bucket.uploadObject (b : S3Bucket) (beh : S3Behavior) (key : String) (body : Nat) :
    S3Op Unit :=
  match uploadDone beh b.bucketName key body with
  | (.ok _, calls) => ⟨.ok (), calls, []⟩
  | (.error e, calls) =>
      ⟨.error (.s3BucketException "Failed to upload object to S3" (some e)), calls,
        [⟨.error, "Failed to upload object to S3: " ++ e.render⟩]⟩

/-- Embedding of `S3Bucket.downloadObject` (returns `response.Body`). -/
def S3Bucket.downloadObject (b : S3Bucket) (beh : S3Behavior) (key : String) :
    S3Op (Option String) :=
  let call := S3Call.getObject b.bucketName key
  match beh call with
  | .ok resp => ⟨.ok resp.Body, [call], []⟩
  | .error e =>
      ⟨.error (.s3BucketException "Failed to download object from S3" (some e)), [call],
        [⟨.error, "Failed to download object from S3: " ++ e.render⟩]⟩

/-- Embedding of `S3Bucket.deleteObject`. -/
def S3Bucket.deleteObject (b : S3Bucket) (beh : S3Behavior) (key : String) :
    S3Op Unit :=
  let call := S3Call.deleteObject b.bucketName key
  match beh call with
  | .ok _ => ⟨.ok (), [call], []⟩
  | .error e =>
      ⟨.error (.s3BucketException "Failed to delete object from S3" (some e)), [call],
        [⟨.error, "Failed to delete object from S3: " ++ e.render⟩]⟩

/-- Embedding of `S3Bucket.getPreSignedUrlDownload`.  The source does
`return getSignedUrl(...)` inside the `try` WITHOUT `await`, so only a
synchronous throw reaches the `catch`; a rejection of the returned promise
propagates to the caller unwrapped and unlogged. -/
def S3Bucket.getPreSignedUrlDownload (b : S3Bucket) (sign : SignBehavior) (key : String)
    (expiresIn : Nat := 900) : S3Op String :=
  match sign (S3PresignCommand.getObjectCmd b.bucketName key) expiresIn with
  | .ok url => ⟨.ok url, [], []⟩
  | .thrown e =>
      ⟨.error (.s3BucketException "Failed to get pre-signed url for download" (some e)), [],
        [⟨.error, "Failed to get pre-signed url for download: " ++ e.render⟩]⟩
  | .rejected e => ⟨.error e, [], []⟩

/-- Embedding of `S3Bucket.getPreSignedUrlForUpload`.  Same un-awaited
`return getSignedUrl(...)` pattern as the download variant. -/
def S3Bucket.getPreSignedUrlForUpload (b : S3Bucket) (sign : SignBehavior) (key : String)
    (expiresIn : Nat := 900) : S3Op String :=
  match sign (S3PresignCommand.putObjectCmd b.bucketName key) expiresIn with
  | .ok url => ⟨.ok url, [], []⟩
  | .thrown e =>
      ⟨.error (.s3BucketException "Failed to get pre-signed url for upload" (some e)), [],
        [⟨.error, "Failed to get pre-signed url for upload: " ++ e.render⟩]⟩
  | .rejected e => ⟨.error e, [], []⟩

/-! ## Characterization lemmas for the compound SQS operations -/

/-- If the underlying delete call fails, `sendMessageToDlq` re-raises the
wrapped error produced by `deleteMessage` and adds one warning entry. -/
theorem sendMessageToDlq_deleteFail (q : SqsQueue) (beh : SqsBehavior) (m : Message)
    (e : JsError)
    (hd : beh (SqsCall.deleteMessage q.queueUrl m.ReceiptHandle) = Except.error e) :
    q.sendMessageToDlq beh m =
      ⟨Except.error (.sqsQueueException "Failed to delete message" (some e)),
       [SqsCall.deleteMessage q.queueUrl m.ReceiptHandle],
       [⟨.error, "Failed to delete message from SQS queue: " ++ e.render⟩,
        ⟨.warn, "Failed to send message to DLQ while deleting message from original queue"⟩]⟩ := by
  simp [SqsQueue.sendMessageToDlq, SqsQueue.deleteMessage, hd, dlqCatch,
    JsError.isSqsQueueException]

/-- If both underlying calls succeed, `sendMessageToDlq` succeeds with the
two-call trace and no logs. -/
theorem sendMessageToDlq_ok (q : SqsQueue) (beh : SqsBehavior) (m : Message)
    (r r2 : SqsResponse)
    (hd : beh (SqsCall.deleteMessage q.queueUrl m.ReceiptHandle) = Except.ok r)
    (hs : beh (SqsCall.sendMessage q.deadLetterQueueUrl m.Body none) = Except.ok r2) :
    q.sendMessageToDlq beh m =
      ⟨Except.ok (),
       [SqsCall.deleteMessage q.queueUrl m.ReceiptHandle,
        SqsCall.sendMessage q.deadLetterQueueUrl m.Body none], []⟩ := by
  simp [SqsQueue.sendMessageToDlq, SqsQueue.deleteMessage, hd, hs]

/-- If delete succeeds and the DLQ send fails, the shared `catch` applies to
the send failure. -/
theorem sendMessageToDlq_sendFail (q : SqsQueue) (beh : SqsBehavior) (m : Message)
    (r : SqsResponse) (e : JsError)
    (hd : beh (SqsCall.deleteMessage q.queueUrl m.ReceiptHandle) = Except.ok r)
    (hs : beh (SqsCall.sendMessage q.deadLetterQueueUrl m.Body none) = Except.error e) :
    q.sendMessageToDlq beh m =
      ⟨(dlqCatch e []).1,
       [SqsCall.deleteMessage q.queueUrl m.ReceiptHandle,
        SqsCall.sendMessage q.deadLetterQueueUrl m.Body none],
       (dlqCatch e []).2⟩ := by
  simp [SqsQueue.sendMessageToDlq, SqsQueue.deleteMessage, hd, hs]

/-- If the underlying delete call fails, `rescheduleMessage` re-raises the
wrapped error produced by `deleteMessage` and adds one warning entry. -/
theorem rescheduleMessage_deleteFail (q : SqsQueue) (beh : SqsBehavior) (m : Message)
    (e : JsError)
    (hd : beh (SqsCall.deleteMessage q.queueUrl m.ReceiptHandle) = Except.error e) :
    q.rescheduleMessage beh m =
      ⟨Except.error (.sqsQueueException "Failed to delete message" (some e)),
       [SqsCall.deleteMessage q.queueUrl m.ReceiptHandle],
       [⟨.error, "Failed to delete message from SQS queue: " ++ e.render⟩,
        ⟨.warn, "Failed to reschedule message while deleting message from queue"⟩]⟩ := by
  simp [SqsQueue.rescheduleMessage, SqsQueue.deleteMessage, hd, rescheduleCatch,
    JsError.isSqsQueueException]

/-- If both underlying calls succeed, `rescheduleMessage` succeeds with the
two-call trace (delayed send back to the primary queue) and no logs. -/
theorem rescheduleMessage_ok (q : SqsQueue) (beh : SqsBehavior) (m : Message)
    (r r2 : SqsResponse)
    (hd : beh (SqsCall.deleteMessage q.queueUrl m.ReceiptHandle) = Except.ok r)
    (hs : beh (SqsCall.sendMessage q.queueUrl m.Body (some 30)) = Except.ok r2) :
    q.rescheduleMessage beh m =
      ⟨Except.ok (),
       [SqsCall.deleteMessage q.queueUrl m.ReceiptHandle,
        SqsCall.sendMessage q.queueUrl m.Body (some 30)], []⟩ := by
  simp [SqsQueue.rescheduleMessage, SqsQueue.deleteMessage, hd, hs]

/-- If delete succeeds and the delayed re-send fails, the shared `catch`
applies to the send failure. -/
theorem rescheduleMessage_sendFail (q : SqsQueue) (beh : SqsBehavior) (m : Message)
    (r : SqsResponse) (e : JsError)
    (hd : beh (SqsCall.deleteMessage q.queueUrl m.ReceiptHandle) = Except.ok r)
    (hs : beh (SqsCall.sendMessage q.queueUrl m.Body (some 30)) = Except.error e) :
    q.rescheduleMessage beh m =
      ⟨(rescheduleCatch e []).1,
       [SqsCall.deleteMessage q.queueUrl m.ReceiptHandle,
        SqsCall.sendMessage q.queueUrl m.Body (some 30)],
       (rescheduleCatch e []).2⟩ := by
  simp [SqsQueue.rescheduleMessage, SqsQueue.deleteMessage, hd, hs]

/-! ## Witness behaviors -/

/-- Underlying SQS client that succeeds on every call. -/
def sqsOkBeh : SqsBehavior := fun _ => Except.ok {}

/-- Underlying SQS client whose delete call fails with a plain `Error`. -/
def sqsDeleteFailBeh : SqsBehavior := fun c =>
  match c with
  | SqsCall.deleteMessage _ _ => Except.error (JsError.other "Error" "boom")
  | _ => Except.ok {}

/-- Underlying SQS client whose delete succeeds but whose send call fails
with an error that is itself an `SqsQueueException` instance. -/
def sqsSendSqsExcBeh : SqsBehavior := fun c =>
  match c with
  | SqsCall.deleteMessage _ _ => Except.ok {}
  | _ => Except.error (JsError.sqsQueueException "boom" none)

/-- Underlying SQS client whose delete succeeds but whose send call fails
with a plain (non-component) `Error`. -/
def sqsSendFailBeh : SqsBehavior := fun c =>
  match c with
  | SqsCall.deleteMessage _ _ => Except.ok {}
  | _ => Except.error (JsError.other "Error" "send failed")

/-! ## Claim theorems: compound SQS operations -/

/-- C4: whenever `sendMessageToDlq` succeeds, exactly two underlying queue
client calls occur, in order: a delete on the primary queue URL with the
message's receipt token, then a send to the dead-letter queue URL whose body
equals the original message's body and which carries no delay parameter. -/
theorem sendMessageToDlq_call_sequence (q : SqsQueue) (beh : SqsBehavior) (m : Message)
    (h : (q.sendMessageToDlq beh m).result = Except.ok ()) :
    (q.sendMessageToDlq beh m).calls =
      [SqsCall.deleteMessage q.queueUrl m.ReceiptHandle,
       SqsCall.sendMessage q.deadLetterQueueUrl m.Body none] := by
  cases hd : beh (SqsCall.deleteMessage q.queueUrl m.ReceiptHandle) with
  | error e => rw [sendMessageToDlq_deleteFail q beh m e hd] at h; exact absurd h (by simp)
  | ok r =>
      cases hs : beh (SqsCall.sendMessage q.deadLetterQueueUrl m.Body none) with
      | ok r2 => rw [sendMessageToDlq_ok q beh m r r2 hd hs]
      | error e =>
          rw [sendMessageToDlq_sendFail q beh m r e hd hs] at h
          unfold dlqCatch at h
          split at h <;> simp at h

/-- Witness for C4: a concrete successful dead-letter move issues exactly the
delete-then-send call pair. -/
theorem sendMessageToDlq_call_sequence_witness :
    (SqsQueue.sendMessageToDlq ⟨"qUrl", "dlqUrl"⟩ sqsOkBeh
        ⟨some "id", some "rcpt", some "body"⟩).calls =
      [SqsCall.deleteMessage "qUrl" (some "rcpt"),
       SqsCall.sendMessage "dlqUrl" (some "body") none] :=
  sendMessageToDlq_call_sequence ⟨"qUrl", "dlqUrl"⟩ sqsOkBeh
    ⟨some "id", some "rcpt", some "body"⟩ rfl

/-- C5: whenever `rescheduleMessage` succeeds, exactly two underlying queue
client calls occur, in order: a delete on the primary queue URL with the
message's receipt token, then a send back to the same primary queue URL with
the same body and a fixed delay of 30 seconds. -/
theorem rescheduleMessage_call_sequence (q : SqsQueue) (beh : SqsBehavior) (m : Message)
    (h : (q.rescheduleMessage beh m).result = Except.ok ()) :
    (q.rescheduleMessage beh m).calls =
      [SqsCall.deleteMessage q.queueUrl m.ReceiptHandle,
       SqsCall.sendMessage q.queueUrl m.Body (some 30)] := by
  cases hd : beh (SqsCall.deleteMessage q.queueUrl m.ReceiptHandle) with
  | error e => rw [rescheduleMessage_deleteFail q beh m e hd] at h; exact absurd h (by simp)
  | ok r =>
      cases hs : beh (SqsCall.sendMessage q.queueUrl m.Body (some 30)) with
      | ok r2 => rw [rescheduleMessage_ok q beh m r r2 hd hs]
      | error e =>
          rw [rescheduleMessage_sendFail q beh m r e hd hs] at h
          unfold rescheduleCatch at h
          split at h <;> simp at h

/-- Witness for C5: a concrete successful reschedule issues exactly the
delete-then-delayed-send call pair. -/
theorem rescheduleMessage_call_sequence_witness :
    (SqsQueue.rescheduleMessage ⟨"qUrl", "dlqUrl"⟩ sqsOkBeh
        ⟨some "id", some "rcpt", some "body"⟩).calls =
      [SqsCall.deleteMessage "qUrl" (some "rcpt"),
       SqsCall.sendMessage "qUrl" (some "body") (some 30)] :=
  rescheduleMessage_call_sequence ⟨"qUrl", "dlqUrl"⟩ sqsOkBeh
    ⟨some "id", some "rcpt", some "body"⟩ rfl

/-- C10: `deleteMessage` validates nothing at the facade boundary: for every
message, including one with an undefined receipt token, it issues exactly one
delete call to the primary queue URL carrying the message's receipt token
as given, succeeds exactly when the underlying client succeeds, and wraps the
underlying error when the client fails. -/
theorem deleteMessage_no_validation (q : SqsQueue) (beh : SqsBehavior) (m : Message) :
    (q.deleteMessage beh m).calls = [SqsCall.deleteMessage q.queueUrl m.ReceiptHandle] ∧
    (∀ r, beh (SqsCall.deleteMessage q.queueUrl m.ReceiptHandle) = Except.ok r →
        (q.deleteMessage beh m).result = Except.ok ()) ∧
    (∀ e, beh (SqsCall.deleteMessage q.queueUrl m.ReceiptHandle) = Except.error e →
        (q.deleteMessage beh m).result =
          Except.error (.sqsQueueException "Failed to delete message" (some e))) := by
  refine ⟨?_, ?_, ?_⟩
  · cases hd : beh (SqsCall.deleteMessage q.queueUrl m.ReceiptHandle) <;>
      simp [SqsQueue.deleteMessage, hd]
  · intro r hr; simp [SqsQueue.deleteMessage, hr]
  · intro e he; simp [SqsQueue.deleteMessage, he]

/-- Witness for C10: a message whose `ReceiptHandle` is undefined still
produces exactly one delete call carrying `none`, and a failing client makes
the operation fail with the wrapped error. -/
theorem deleteMessage_no_validation_witness :
    (SqsQueue.deleteMessage ⟨"qUrl", "dlqUrl"⟩ sqsDeleteFailBeh ⟨none, none, some "b"⟩).calls =
      [SqsCall.deleteMessage "qUrl" none] ∧
    (SqsQueue.deleteMessage ⟨"qUrl", "dlqUrl"⟩ sqsDeleteFailBeh ⟨none, none, some "b"⟩).result =
      Except.error (.sqsQueueException "Failed to delete message"
        (some (JsError.other "Error" "boom"))) :=
  ⟨(deleteMessage_no_validation ⟨"qUrl", "dlqUrl"⟩ sqsDeleteFailBeh ⟨none, none, some "b"⟩).1,
   (deleteMessage_no_validation ⟨"qUrl", "dlqUrl"⟩ sqsDeleteFailBeh ⟨none, none, some "b"⟩).2.2
     (JsError.other "Error" "boom") rfl⟩

/-- C3 counterexample: the claim says a failure of the second (send) step is
raised "for any reason" as a FRESH queue wrapped error with an error-level
log entry; but when the send step fails with an error that is itself an
`SqsQueueException` instance, the code re-raises that very error unchanged
and logs only a warning. -/
theorem compound_error_attribution_counterexample :
    (SqsQueue.sendMessageToDlq ⟨"qUrl", "dlqUrl"⟩ sqsSendSqsExcBeh
        ⟨some "id", some "rcpt", some "body"⟩).result =
      Except.error (JsError.sqsQueueException "boom" none) ∧
    (SqsQueue.sendMessageToDlq ⟨"qUrl", "dlqUrl"⟩ sqsSendSqsExcBeh
        ⟨some "id", some "rcpt", some "body"⟩).logs =
      [⟨LogLevel.warn,
        "Failed to send message to DLQ while deleting message from original queue"⟩] :=
  ⟨rfl, rfl⟩

/-- C3 (amended): in `sendMessageToDlq` and `rescheduleMessage`, a failing
delete step always raises the component's wrapped error, which is re-raised
unchanged with one added warning-level entry; a send-step failure that is
not a component error is wrapped fresh with an error-level entry; a
send-step failure that is already a component error is re-raised unchanged
with a warning-level entry. -/
theorem compound_error_attribution (q : SqsQueue) (beh : SqsBehavior) (m : Message)
    (e : JsError) :
    (beh (SqsCall.deleteMessage q.queueUrl m.ReceiptHandle) = Except.error e →
      (q.sendMessageToDlq beh m).result =
        Except.error (.sqsQueueException "Failed to delete message" (some e)) ∧
      (q.sendMessageToDlq beh m).logs =
        [⟨.error, "Failed to delete message from SQS queue: " ++ e.render⟩,
         ⟨.warn, "Failed to send message to DLQ while deleting message from original queue"⟩] ∧
      (q.rescheduleMessage beh m).result =
        Except.error (.sqsQueueException "Failed to delete message" (some e)) ∧
      (q.rescheduleMessage beh m).logs =
        [⟨.error, "Failed to delete message from SQS queue: " ++ e.render⟩,
         ⟨.warn, "Failed to reschedule message while deleting message from queue"⟩]) ∧
    (∀ r, beh (SqsCall.deleteMessage q.queueUrl m.ReceiptHandle) = Except.ok r →
      e.isSqsQueueException = false →
      (beh (SqsCall.sendMessage q.deadLetterQueueUrl m.Body none) = Except.error e →
        (q.sendMessageToDlq beh m).result =
          Except.error (.sqsQueueException "Failed to send message to DLQ" (some e)) ∧
        (q.sendMessageToDlq beh m).logs =
          [⟨.error, "Failed to send message to SQS DLQ: " ++ e.render⟩]) ∧
      (beh (SqsCall.sendMessage q.queueUrl m.Body (some 30)) = Except.error e →
        (q.rescheduleMessage beh m).result =
          Except.error (.sqsQueueException "Failed to reschedule message" (some e)) ∧
        (q.rescheduleMessage beh m).logs =
          [⟨.error, "Failed to reschedule message: " ++ e.render⟩])) ∧
    (∀ r, beh (SqsCall.deleteMessage q.queueUrl m.ReceiptHandle) = Except.ok r →
      e.isSqsQueueException = true →
      (beh (SqsCall.sendMessage q.deadLetterQueueUrl m.Body none) = Except.error e →
        (q.sendMessageToDlq beh m).result = Except.error e ∧
        (q.sendMessageToDlq beh m).logs =
          [⟨.warn, "Failed to send message to DLQ while deleting message from original queue"⟩]) ∧
      (beh (SqsCall.sendMessage q.queueUrl m.Body (some 30)) = Except.error e →
        (q.rescheduleMessage beh m).result = Except.error e ∧
        (q.rescheduleMessage beh m).logs =
          [⟨.warn, "Failed to reschedule message while deleting message from queue"⟩])) := by
  refine ⟨?_, ?_, ?_⟩
  · intro hd
    rw [sendMessageToDlq_deleteFail q beh m e hd, rescheduleMessage_deleteFail q beh m e hd]
    exact ⟨rfl, rfl, rfl, rfl⟩
  · intro r hd hnot
    constructor
    · intro hs
      rw [sendMessageToDlq_sendFail q beh m r e hd hs]
      simp [dlqCatch, hnot]
    · intro hs
      rw [rescheduleMessage_sendFail q beh m r e hd hs]
      simp [rescheduleCatch, hnot]
  · intro r hd hyes
    constructor
    · intro hs
      rw [sendMessageToDlq_sendFail q beh m r e hd hs]
      simp [dlqCatch, hyes]
    · intro hs
      rw [rescheduleMessage_sendFail q beh m r e hd hs]
      simp [rescheduleCatch, hyes]

/-- Witness for the amended C3: a concrete failing delete step yields the
re-raised wrapped error and the error-then-warning log pair. -/
theorem compound_error_attribution_witness :
    (SqsQueue.sendMessageToDlq ⟨"qUrl", "dlqUrl"⟩ sqsDeleteFailBeh
        ⟨some "id", some "rcpt", some "body"⟩).result =
      Except.error (.sqsQueueException "Failed to delete message"
        (some (JsError.other "Error" "boom"))) ∧
    (SqsQueue.sendMessageToDlq ⟨"qUrl", "dlqUrl"⟩ sqsDeleteFailBeh
        ⟨some "id", some "rcpt", some "body"⟩).logs =
      [⟨.error, "Failed to delete message from SQS queue: Error: boom"⟩,
       ⟨.warn, "Failed to send message to DLQ while deleting message from original queue"⟩] ∧
    (SqsQueue.rescheduleMessage ⟨"qUrl", "dlqUrl"⟩ sqsDeleteFailBeh
        ⟨some "id", some "rcpt", some "body"⟩).result =
      Except.error (.sqsQueueException "Failed to delete message"
        (some (JsError.other "Error" "boom"))) ∧
    (SqsQueue.rescheduleMessage ⟨"qUrl", "dlqUrl"⟩ sqsDeleteFailBeh
        ⟨some "id", some "rcpt", some "body"⟩).logs =
      [⟨.error, "Failed to delete message from SQS queue: Error: boom"⟩,
       ⟨.warn, "Failed to reschedule message while deleting message from queue"⟩] :=
  (compound_error_attribution ⟨"qUrl", "dlqUrl"⟩ sqsDeleteFailBeh
    ⟨some "id", some "rcpt", some "body"⟩ (JsError.other "Error" "boom")).1 rfl

/-- C9: the warn-versus-wrap choice in the compound operations depends only
on whether the caught error is an `SqsQueueException` instance, not on which
step raised it: `deleteMessage` wraps every underlying failure into that
type, so a failing delete step always re-raises its error unchanged with a
warning, and a send-step error that is already of that type is likewise
re-raised unchanged with a warning instead of being freshly wrapped. -/
theorem compound_branch_depends_only_on_error_type (q : SqsQueue) (beh : SqsBehavior)
    (m : Message) :
    (∀ err, (q.deleteMessage beh m).result = Except.error err →
        err.isSqsQueueException = true) ∧
    (∀ e, beh (SqsCall.deleteMessage q.queueUrl m.ReceiptHandle) = Except.error e →
      (q.sendMessageToDlq beh m).result = (q.deleteMessage beh m).result ∧
      (q.sendMessageToDlq beh m).logs.getLast? =
        some ⟨.warn, "Failed to send message to DLQ while deleting message from original queue"⟩ ∧
      (q.rescheduleMessage beh m).result = (q.deleteMessage beh m).result ∧
      (q.rescheduleMessage beh m).logs.getLast? =
        some ⟨.warn, "Failed to reschedule message while deleting message from queue"⟩) ∧
    (∀ r msg cause, beh (SqsCall.deleteMessage q.queueUrl m.ReceiptHandle) = Except.ok r →
      (beh (SqsCall.sendMessage q.deadLetterQueueUrl m.Body none) =
          Except.error (JsError.sqsQueueException msg cause) →
        (q.sendMessageToDlq beh m).result =
          Except.error (JsError.sqsQueueException msg cause) ∧
        (q.sendMessageToDlq beh m).logs =
          [⟨.warn, "Failed to send message to DLQ while deleting message from original queue"⟩]) ∧
      (beh (SqsCall.sendMessage q.queueUrl m.Body (some 30)) =
          Except.error (JsError.sqsQueueException msg cause) →
        (q.rescheduleMessage beh m).result =
          Except.error (JsError.sqsQueueException msg cause) ∧
        (q.rescheduleMessage beh m).logs =
          [⟨.warn, "Failed to reschedule message while deleting message from queue"⟩])) := by
  refine ⟨?_, ?_, ?_⟩
  · intro err herr
    cases hd : beh (SqsCall.deleteMessage q.queueUrl m.ReceiptHandle) with
    | ok r => simp [SqsQueue.deleteMessage, hd] at herr
    | error e =>
        simp [SqsQueue.deleteMessage, hd] at herr
        subst herr
        rfl
  · intro e hd
    rw [sendMessageToDlq_deleteFail q beh m e hd, rescheduleMessage_deleteFail q beh m e hd]
    simp [SqsQueue.deleteMessage, hd]
  · intro r msg cause hd
    constructor
    · intro hs
      rw [sendMessageToDlq_sendFail q beh m r _ hd hs]
      simp [dlqCatch, JsError.isSqsQueueException]
    · intro hs
      rw [rescheduleMessage_sendFail q beh m r _ hd hs]
      simp [rescheduleCatch, JsError.isSqsQueueException]

/-- Witness for C9: a concrete send-step failure that is an
`SqsQueueException` instance is re-raised unchanged with a single warning. -/
theorem compound_branch_depends_only_on_error_type_witness :
    (SqsQueue.sendMessageToDlq ⟨"qUrl", "dlqUrl"⟩ sqsSendSqsExcBeh
        ⟨some "id", some "rcpt", some "body"⟩).result =
      Except.error (JsError.sqsQueueException "boom" none) ∧
    (SqsQueue.sendMessageToDlq ⟨"qUrl", "dlqUrl"⟩ sqsSendSqsExcBeh
        ⟨some "id", some "rcpt", some "body"⟩).logs =
      [⟨.warn, "Failed to send message to DLQ while deleting message from original queue"⟩] :=
  ((compound_branch_depends_only_on_error_type ⟨"qUrl", "dlqUrl"⟩ sqsSendSqsExcBeh
      ⟨some "id", some "rcpt", some "body"⟩).2.2 {} "boom" none rfl).1 rfl

/-! ## Claim theorems: empty results and region parsing -/

/-- C7: when the service responds successfully with an empty or missing
result collection, `listObjects` returns an empty sequence and
`receiveMessage` returns an empty sequence; neither operation fails. -/
theorem empty_results_return_empty (b : S3Bucket) (s3beh : S3Behavior)
    (q : SqsQueue) (qbeh : SqsBehavior) (pfx : String) (mk n : Nat)
    (resp : S3Response) (qresp : SqsResponse)
    (h1 : s3beh (S3Call.listObjectsV2 b.bucketName pfx mk) = Except.ok resp)
    (h2 : resp.Contents = none ∨ resp.Contents = some [])
    (h3 : qbeh (SqsCall.receiveMessage q.queueUrl n 20) = Except.ok qresp)
    (h4 : qresp.Messages = none ∨ qresp.Messages = some []) :
    (b.listObjects s3beh pfx mk).result = Except.ok [] ∧
    (q.receiveMessage qbeh n).result = Except.ok [] := by
  constructor
  · rcases h2 with h | h <;> simp [S3Bucket.listObjects, h1, h]
  · rcases h4 with h | h <;> simp [SqsQueue.receiveMessage, h3, h]

/-- Witness for C7: a concrete service response with the collections missing
yields empty sequences from both operations. -/
theorem empty_results_return_empty_witness :
    ((S3Bucket.mk "region" "testBucket").listObjects (fun _ => Except.ok {}) "" 1000).result =
      Except.ok [] ∧
    (SqsQueue.receiveMessage ⟨"qUrl", "dlqUrl"⟩ (fun _ => Except.ok {}) 10).result =
      Except.ok [] :=
  empty_results_return_empty (S3Bucket.mk "region" "testBucket") (fun _ => Except.ok {})
    ⟨"qUrl", "dlqUrl"⟩ (fun _ => Except.ok {}) "" 1000 10 {} {}
    rfl (Or.inl rfl) rfl (Or.inl rfl)

/-- Splitting a character list that starts with a dot-free segment `xs`
followed by a dot yields `xs` as the first segment. -/
theorem jsSplitDot_append (xs tail : List Char) (hxs : '.' ∉ xs) :
    jsSplitDot (xs ++ '.' :: tail) = xs :: jsSplitDot tail := by
  induction xs with
  | nil => simp [jsSplitDot]
  | cons x rest ih =>
      have hx : ¬(x = '.') := by
        intro h
        exact hxs (h ▸ List.mem_cons_self x rest)
      have hrest : '.' ∉ rest := fun h => hxs (List.mem_cons_of_mem _ h)
      simp [jsSplitDot, hx, ih hrest, List.modifyHead]

/-- C8: for a queue URL of the form `a.b.rest` whose first two dot-delimited
segments are `a` and `b`, the region the `SqsQueue` constructor supplies to
the underlying SQS client is exactly the second segment `b` (index 1 after
splitting the URL on `'.'`). -/
theorem sqs_region_second_segment (a b c : List Char)
    (ha : '.' ∉ a) (hb : '.' ∉ b) :
    sqsClientRegion (String.mk (a ++ '.' :: (b ++ '.' :: c))) = some (String.mk b) := by
  unfold sqsClientRegion
  rw [show (String.mk (a ++ '.' :: (b ++ '.' :: c))).data = a ++ '.' :: (b ++ '.' :: c) from rfl,
    jsSplitDot_append a (b ++ '.' :: c) ha, jsSplitDot_append b c hb]
  simp

/-- Witness for C8: the region parsed from a realistic SQS queue URL is its
second dot-delimited segment. -/
theorem sqs_region_second_segment_witness :
    sqsClientRegion (String.mk ("https://sqs".data ++ '.' ::
        ("eu-west-1".data ++ '.' :: "amazonaws.com/123456789012/MyQueue".data))) =
      some (String.mk "eu-west-1".data) :=
  sqs_region_second_segment "https://sqs".data "eu-west-1".data
    "amazonaws.com/123456789012/MyQueue".data (by decide) (by decide)

/-! ## Upload-strategy lemmas -/

/-- Closed form of the part split: with sufficient fuel, a positive payload
of `size` bytes splits into `⌈size/partSize⌉` parts, all of `partSize` bytes
except the last, which holds the remainder. -/
theorem uploadChunkSizesGo_eq (fuel : Nat) :
    ∀ size, 0 < size → size ≤ fuel * partSize →
      uploadChunkSizesGo fuel size =
        List.replicate ((size + partSize - 1) / partSize - 1) partSize ++
          [size - ((size + partSize - 1) / partSize - 1) * partSize] := by
  induction fuel with
  | zero =>
      intro size h1 h2
      simp at h2
      omega
  | succ fuel ih =>
      intro size h1 h2
      by_cases hle : size ≤ partSize
      · have hdiv : (size + partSize - 1) / partSize = 1 := by
          rw [partSize_eq] at hle ⊢
          omega
        simp [uploadChunkSizesGo, hle, hdiv]
      · have hgt : partSize < size := Nat.lt_of_not_le hle
        have hrec := ih (size - partSize)
          (by rw [partSize_eq] at hgt; omega)
          (by rw [partSize_eq] at hgt h2 ⊢; omega)
        have hd1 : (size + partSize - 1) / partSize - 1 =
            ((size - partSize + partSize - 1) / partSize - 1) + 1 := by
          rw [partSize_eq] at hgt ⊢
          omega
        have hx : size - partSize -
            ((size - partSize + partSize - 1) / partSize - 1) * partSize =
            size - (((size - partSize + partSize - 1) / partSize - 1) + 1) * partSize := by
          rw [partSize_eq]
          omega
        simp only [uploadChunkSizesGo, if_neg hle]
        rw [hrec, hx, hd1, List.replicate_succ, List.cons_append]

/-- Closed form of `uploadChunkSizes` for a positive payload size. -/
theorem uploadChunkSizes_eq (size : Nat) (h : 0 < size) :
    uploadChunkSizes size =
      List.replicate ((size + partSize - 1) / partSize - 1) partSize ++
        [size - ((size + partSize - 1) / partSize - 1) * partSize] := by
  unfold uploadChunkSizes
  exact uploadChunkSizesGo_eq _ size h (by rw [partSize_eq]; omega)

/-- When the part-upload loop succeeds it returns one `(partNumber, ETag)`
pair per chunk with part numbers counting up from `pn`, and its call trace
is exactly one `uploadPart` command per chunk, in order. -/
theorem uploadParts_ok (beh : S3Behavior) (bucket key : String) (uid : Option String) :
    ∀ (szs : List Nat) (pn : Nat) (parts : List (Nat × Option String)) (calls : List S3Call),
      uploadParts beh bucket key uid szs pn = (Except.ok parts, calls) →
      parts.map Prod.fst = List.range' pn szs.length ∧
      calls = List.zipWith
        (fun (p : Nat × Option String) (sz : Nat) => S3Call.uploadPart bucket key uid p.1 sz)
        parts szs := by
  intro szs
  induction szs with
  | nil =>
      intro pn parts calls h
      simp [uploadParts] at h
      obtain ⟨h1, h2⟩ := h
      subst h1; subst h2
      simp
  | cons sz rest ih =>
      intro pn parts calls h
      simp only [uploadParts] at h
      cases hb : beh (S3Call.uploadPart bucket key uid pn sz) with
      | error e => rw [hb] at h; simp at h
      | ok resp =>
          rw [hb] at h
          cases hrec : uploadParts beh bucket key uid rest (pn + 1) with
          | mk res rcalls =>
              rw [hrec] at h
              cases res with
              | error e => simp at h
              | ok parts2 =>
                  simp at h
                  obtain ⟨h1, h2⟩ := h
                  subst h1; subst h2
                  obtain ⟨ih1, ih2⟩ := ih (pn + 1) parts2 rcalls hrec
                  constructor
                  · simp [List.range'_succ, ih1]
                  · simp [ih2]

/-! ## Claim theorems: upload strategy -/

/-- C2: for every payload of at most 104,857,600 bytes (100 MiB),
`uploadObject` issues exactly one `PutObject` call against the configured
bucket and key, and no multipart calls. -/
theorem uploadObject_single_put (b : S3Bucket) (beh : S3Behavior) (key : String)
    (size : Nat) (hsmall : size ≤ 104857600) :
    (b.uploadObject beh key size).calls = [S3Call.putObject b.bucketName key size] := by
  have hle : size ≤ partSize := by rw [partSize_eq]; exact hsmall
  cases hput : beh (S3Call.putObject b.bucketName key size) with
  | ok r => simp [S3Bucket.uploadObject, uploadDone, hle, hput]
  | error e => simp [S3Bucket.uploadObject, uploadDone, hle, hput]

/-- Underlying S3 client that succeeds on every call, reporting an upload id
and an ETag as the repository's tests do. -/
def s3OkBeh : S3Behavior := fun _ =>
  Except.ok { UploadId := some "upload-id", ETag := some "etag" }

/-- Witness for C2: a 9-byte payload is sent with a single put call. -/
theorem uploadObject_single_put_witness :
    ((S3Bucket.mk "region" "testBucket").uploadObject s3OkBeh "test/object1" 9).calls =
      [S3Call.putObject "testBucket" "test/object1" 9] :=
  uploadObject_single_put (S3Bucket.mk "region" "testBucket") s3OkBeh "test/object1" 9
    (by norm_num)

/-- C1: for every payload strictly larger than 104,857,600 bytes (100 MiB),
a successful `uploadObject` performs a multipart sequence: exactly one
initiate call, then `⌈size/100MiB⌉` part-upload calls whose part numbers
strictly increase from 1, each part exactly 100 MiB except the final
remainder part (positive and at most 100 MiB), then exactly one completion
call referencing the full ordered list of uploaded part identifiers. -/
theorem uploadObject_multipart_sequence (b : S3Bucket) (beh : S3Behavior) (key : String)
    (size : Nat) (hlarge : 104857600 < size)
    (hok : (b.uploadObject beh key size).result = Except.ok ()) :
    ∃ (uid : Option String) (parts : List (Nat × Option String)),
      parts.length = (size + 104857600 - 1) / 104857600 ∧
      parts.map Prod.fst = List.range' 1 ((size + 104857600 - 1) / 104857600) ∧
      0 < size - ((size + 104857600 - 1) / 104857600 - 1) * 104857600 ∧
      size - ((size + 104857600 - 1) / 104857600 - 1) * 104857600 ≤ 104857600 ∧
      (b.uploadObject beh key size).calls =
        S3Call.createMultipartUpload b.bucketName key ::
          (List.zipWith
            (fun (p : Nat × Option String) (sz : Nat) =>
              S3Call.uploadPart b.bucketName key uid p.1 sz)
            parts
            (List.replicate ((size + 104857600 - 1) / 104857600 - 1) 104857600 ++
              [size - ((size + 104857600 - 1) / 104857600 - 1) * 104857600]) ++
            [S3Call.completeMultipartUpload b.bucketName key uid parts]) := by
  have hgt : partSize < size := by rw [partSize_eq]; exact hlarge
  have hnle : ¬ size ≤ partSize := Nat.not_le_of_lt hgt
  have hchunks := uploadChunkSizes_eq size (by omega)
  cases hinit : beh (S3Call.createMultipartUpload b.bucketName key) with
  | error e =>
      exfalso
      simp [S3Bucket.uploadObject, uploadDone, hnle, hinit] at hok
  | ok initResp =>
      cases hup : uploadParts beh b.bucketName key initResp.UploadId
          (uploadChunkSizes size) 1 with
      | mk res pcalls =>
          cases res with
          | error e =>
              exfalso
              simp [S3Bucket.uploadObject, uploadDone, hnle, hinit, hup] at hok
          | ok parts =>
              cases hcomp : beh (S3Call.completeMultipartUpload b.bucketName key
                  initResp.UploadId parts) with
              | error e =>
                  exfalso
                  simp [S3Bucket.uploadObject, uploadDone, hnle, hinit, hup, hcomp] at hok
              | ok cresp =>
                  obtain ⟨hmap, hcalls⟩ := uploadParts_ok beh b.bucketName key
                    initResp.UploadId (uploadChunkSizes size) 1 parts pcalls hup
                  have hlen : (uploadChunkSizes size).length =
                      (size + 104857600 - 1) / 104857600 := by
                    rw [hchunks, partSize_eq]
                    simp
                    omega
                  have hplen : parts.length = (size + 104857600 - 1) / 104857600 := by
                    have hml := congrArg List.length hmap
                    simpa [hlen] using hml
                  have hcallseq : (b.uploadObject beh key size).calls =
                      S3Call.createMultipartUpload b.bucketName key ::
                        (pcalls ++ [S3Call.completeMultipartUpload b.bucketName key
                          initResp.UploadId parts]) := by
                    simp [S3Bucket.uploadObject, uploadDone, hnle, hinit, hup, hcomp]
                  refine ⟨initResp.UploadId, parts, hplen, ?_, ?_, ?_, ?_⟩
                  · rw [hmap, hlen]
                  · omega
                  · omega
                  · rw [hcallseq, hcalls, hchunks, partSize_eq]

/-- Witness for C1: a payload one byte over the threshold uploads as an
initiate call, two parts (100 MiB then 1 byte, part numbers 1 and 2), and a
completion call referencing both parts. -/
theorem uploadObject_multipart_sequence_witness :
    ∃ (uid : Option String) (parts : List (Nat × Option String)),
      parts.length = 2 ∧
      parts.map Prod.fst = List.range' 1 2 ∧
      0 < (1 : Nat) ∧
      (1 : Nat) ≤ 104857600 ∧
      ((S3Bucket.mk "region" "testBucket").uploadObject s3OkBeh "test/large-object"
          104857601).calls =
        S3Call.createMultipartUpload "testBucket" "test/large-object" ::
          (List.zipWith
            (fun (p : Nat × Option String) (sz : Nat) =>
              S3Call.uploadPart "testBucket" "test/large-object" uid p.1 sz)
            parts
            (List.replicate 1 104857600 ++ [1]) ++
            [S3Call.completeMultipartUpload "testBucket" "test/large-object" uid parts]) :=
  uploadObject_multipart_sequence (S3Bucket.mk "region" "testBucket") s3OkBeh
    "test/large-object" 104857601 (by norm_num) rfl

/-! ## Claim theorem: uniform error wrapping (C6) -/

/-- Presigning helper whose returned promise rejects. -/
def s3RejectSign : SignBehavior := fun _ _ =>
  SignOutcome.rejected (JsError.other "Error" "presign rejected")

/-- C6 failing input: because both presign methods return the `getSignedUrl`
promise from inside `try` WITHOUT `await`, a rejected promise bypasses the
`catch`: the raw underlying error reaches the caller unwrapped, and no log
entry is produced — contradicting the documented contract that every failure
raises `S3BucketException` after one error-level log. -/
theorem presign_rejection_leaks_raw_error :
    ((S3Bucket.mk "region" "testBucket").getPreSignedUrlDownload s3RejectSign
        "test/object1").result = Except.error (JsError.other "Error" "presign rejected") ∧
    ((S3Bucket.mk "region" "testBucket").getPreSignedUrlDownload s3RejectSign
        "test/object1").logs = [] ∧
    ((S3Bucket.mk "region" "testBucket").getPreSignedUrlForUpload s3RejectSign
        "test/object1").result = Except.error (JsError.other "Error" "presign rejected") ∧
    ((S3Bucket.mk "region" "testBucket").getPreSignedUrlForUpload s3RejectSign
        "test/object1").logs = [] :=
  ⟨rfl, rfl, rfl, rfl⟩

/-- Supporting result: every simple operation of both facades, OTHER than the
un-awaited promise-rejection path of the two presign methods, does satisfy
the uniform contract: an underlying failure is wrapped into the component's
error with the original error attached as cause, after exactly one
error-level log entry containing the rendered original error (synchronous
presign throws included). -/
theorem simple_ops_wrap_underlying_failures (b : S3Bucket) (q : SqsQueue) (e : JsError)
    (key mb : String) (m : Message) (pfx : String) (mk n exp size : Nat)
    (s3beh : S3Behavior) (qbeh : SqsBehavior) (sign : SignBehavior)
    (hs3 : ∀ c, s3beh c = Except.error e)
    (hsign : ∀ c k, sign c k = SignOutcome.thrown e)
    (hq : ∀ c, qbeh c = Except.error e) :
    (b.listObjects s3beh pfx mk).result =
        Except.error (.s3BucketException "Failed to list objects in S3" (some e)) ∧
    (b.listObjects s3beh pfx mk).logs =
        [⟨.error, "Failed to list objects in S3: " ++ e.render⟩] ∧
    (b.headObject s3beh key).result =
        Except.error (.s3BucketException "Failed to head object from S3" (some e)) ∧
    (b.headObject s3beh key).logs =
        [⟨.error, "Failed to head object from S3: " ++ e.render⟩] ∧
    (b.uploadObject s3beh key size).result =
        Except.error (.s3BucketException "Failed to upload object to S3" (some e)) ∧
    (b.uploadObject s3beh key size).logs =
        [⟨.error, "Failed to upload object to S3: " ++ e.render⟩] ∧
    (b.downloadObject s3beh key).result =
        Except.error (.s3BucketException "Failed to download object from S3" (some e)) ∧
    (b.downloadObject s3beh key).logs =
        [⟨.error, "Failed to download object from S3: " ++ e.render⟩] ∧
    (b.deleteObject s3beh key).result =
        Except.error (.s3BucketException "Failed to delete object from S3" (some e)) ∧
    (b.deleteObject s3beh key).logs =
        [⟨.error, "Failed to delete object from S3: " ++ e.render⟩] ∧
    (b.getPreSignedUrlDownload sign key exp).result =
        Except.error (.s3BucketException "Failed to get pre-signed url for download" (some e)) ∧
    (b.getPreSignedUrlDownload sign key exp).logs =
        [⟨.error, "Failed to get pre-signed url for download: " ++ e.render⟩] ∧
    (b.getPreSignedUrlForUpload sign key exp).result =
        Except.error (.s3BucketException "Failed to get pre-signed url for upload" (some e)) ∧
    (b.getPreSignedUrlForUpload sign key exp).logs =
        [⟨.error, "Failed to get pre-signed url for upload: " ++ e.render⟩] ∧
    (q.sendMessage qbeh mb).result =
        Except.error (.sqsQueueException "Failed to send message" (some e)) ∧
    (q.sendMessage qbeh mb).logs =
        [⟨.error, "Failed to send message to SQS queue: " ++ e.render⟩] ∧
    (q.deleteMessage qbeh m).result =
        Except.error (.sqsQueueException "Failed to delete message" (some e)) ∧
    (q.deleteMessage qbeh m).logs =
        [⟨.error, "Failed to delete message from SQS queue: " ++ e.render⟩] ∧
    (q.receiveMessage qbeh n).result =
        Except.error (.sqsQueueException "Failed to receive message" (some e)) ∧
    (q.receiveMessage qbeh n).logs =
        [⟨.error, "Failed to receive message from SQS queue: " ++ e.render⟩] := by
  have hupload : uploadDone s3beh b.bucketName key size =
      (Except.error e,
        if size ≤ partSize then [S3Call.putObject b.bucketName key size]
        else [S3Call.createMultipartUpload b.bucketName key]) := by
    by_cases hle : size ≤ partSize <;>
      simp [uploadDone, hle, hs3 _]
  refine ⟨?_, ?_, ?_, ?_, ?_, ?_, ?_, ?_, ?_, ?_, ?_, ?_, ?_, ?_, ?_, ?_, ?_, ?_, ?_, ?_⟩ <;>
    simp [S3Bucket.listObjects, S3Bucket.headObject, S3Bucket.uploadObject,
      S3Bucket.downloadObject, S3Bucket.deleteObject, S3Bucket.getPreSignedUrlDownload,
      S3Bucket.getPreSignedUrlForUpload, SqsQueue.sendMessage, SqsQueue.deleteMessage,
      SqsQueue.receiveMessage, hupload, hs3 _, hsign _ _, hq _]

end AwsClients
